import Mathlib

/-!
Shallow embedding of the Terrapin-vulnerability scanner
(src/examples-rust/form-src/basic-projects/check_terrapin.rs) in Lean 4,
together with theorems checking the natural-language specification
against the code.

Conventions of the embedding:
* Rust byte values are `Nat` (in theorems that quantify over streams we
  add `< 256` hypotheses where byte-ness matters).
* A Rust `String` produced by the wire parser is represented by its list
  of UTF-8 bytes; the evaluator layer, which the source feeds with
  `Vec<String>`, uses Lean `String`.
* Fallible Rust functions returning `io::Result` become `Except PErr`.
  A Rust panic (out-of-bounds index, out-of-bounds slice, `unwrap` on an
  `Err`) is modelled by the distinguished result `PErr.panic`: the source
  contains unchecked indexing and the claims are partly about it.
-/

/-- Error outcomes of the scanner, mirroring the error values the source
can actually produce: `ioTruncated` stands for an `io::Error` of kind
`UnexpectedEof` (read_exact on a short stream, or the explicit name-list
bounds checks), `oversized` for the `InvalidData` error raised when the
declared packet length exceeds 35000, and `panic` for a Rust panic. -/
inductive PErr where
  | ioTruncated : PErr
  | oversized : PErr
  | panic : PErr
deriving DecidableEq, Repr

/-- Embeds `u32::from_be_bytes` on a list of (at most 4) bytes, big-endian. -/
def be32 (l : List Nat) : Nat :=
  l.foldl (fun acc b => acc * 256 + b) 0

/-- Big-endian 4-byte encoding of a `Nat` below `2 ^ 32`. -/
def be32enc (n : Nat) : List Nat :=
  [n / 2 ^ 24 % 256, n / 2 ^ 16 % 256, n / 2 ^ 8 % 256, n % 256]

/-- The `struct BinaryPacket` of the source. -/
structure BinaryPacket where
  packet_length : Nat
  padding_length : Nat
  payload : List Nat
  padding : List Nat
  mac : List Nat
deriving DecidableEq, Repr

/-- Embedding of `read_single_packet`.  The input is the byte stream the
`BufReader` would yield; the result also returns the unread remainder of
the stream (the Rust function consumes `4 + packet_length` bytes).

The source reads 4 bytes (`read_exact`, `ioTruncated` on a short
stream), rejects lengths above 35000, reads `packet_length` bytes, then
evaluates `pkt_bytes[0]` and the slices
`pkt_bytes[1..packet_length - padding_length]` and
`pkt_bytes[packet_length - padding_length..]` with no bounds check of
its own: when `packet_length = 0` the index panics, and when
`padding_length >= packet_length` the slice bounds panic (usize
underflow / out-of-range slice).  Those panics are modelled by
`PErr.panic`. -/
def read_single_packet (s : List Nat) : Except PErr (BinaryPacket × List Nat) :=
  if s.length < 4 then .error .ioTruncated
  else
    let packet_length := be32 (s.take 4)
    if 35000 < packet_length then .error .oversized
    else
      let rest := s.drop 4
      if rest.length < packet_length then .error .ioTruncated
      else
        let pkt_bytes := rest.take packet_length
        match pkt_bytes with
        | [] => .error .panic
        | padding_length :: _ =>
          if padding_length < packet_length then
            .ok ({ packet_length := packet_length,
                   padding_length := padding_length,
                   payload := (pkt_bytes.drop 1).take (packet_length - padding_length - 1),
                   padding := pkt_bytes.drop (packet_length - padding_length),
                   mac := [] },
                 s.drop (4 + packet_length))
          else .error .panic

/-- UTF-8 validity, as the table-driven automaton that the Rust
`String::from_utf8` checks (the `core::str` validator).  The first
argument is the list of byte ranges still expected to complete the
current multi-byte sequence; a lead byte installs the ranges of its
continuation bytes (`0xE0`, `0xED`, `0xF0` and `0xF4` restrict their
first continuation to exclude overlong forms and surrogates). -/
def utf8Run : List (Nat × Nat) → List Nat → Bool
  | [], [] => true
  | _ :: _, [] => false
  | (lo, hi) :: need, b :: rest => (lo ≤ b && b ≤ hi) && utf8Run need rest
  | [], b :: rest =>
    if b ≤ 0x7F then utf8Run [] rest
    else if 0xC2 ≤ b && b ≤ 0xDF then utf8Run [(0x80, 0xBF)] rest
    else if b = 0xE0 then utf8Run [(0xA0, 0xBF), (0x80, 0xBF)] rest
    else if (0xE1 ≤ b && b ≤ 0xEC) || b = 0xEE || b = 0xEF then
      utf8Run [(0x80, 0xBF), (0x80, 0xBF)] rest
    else if b = 0xED then utf8Run [(0x80, 0x9F), (0x80, 0xBF)] rest
    else if b = 0xF0 then utf8Run [(0x90, 0xBF), (0x80, 0xBF), (0x80, 0xBF)] rest
    else if 0xF1 ≤ b && b ≤ 0xF3 then
      utf8Run [(0x80, 0xBF), (0x80, 0xBF), (0x80, 0xBF)] rest
    else if b = 0xF4 then utf8Run [(0x80, 0x8F), (0x80, 0xBF), (0x80, 0xBF)] rest
    else false

/-- A byte list is valid UTF-8 when the automaton accepts it from the
initial state. -/
def utf8Valid (l : List Nat) : Bool := utf8Run [] l

/-- The Rust `str::split(',')` operation at the byte level (the comma byte
is 44; it never occurs inside a multi-byte UTF-8 sequence, so byte-level
splitting agrees with the char-level split of Rust on valid UTF-8).  On
the empty input it yields one empty token, as the Rust `split` does. -/
def splitOnComma : List Nat → List (List Nat)
  | [] => [[]]
  | b :: rest =>
    if b = 44 then [] :: splitOnComma rest
    else
      match splitOnComma rest with
      | t :: ts => (b :: t) :: ts
      | [] => [[b]]

/-- Embedding of `parse_name_list`.  Reads a 4-byte big-endian length at
`offset` in `pkt.payload`, then `length` body bytes; both bounds checks
fail with `UnexpectedEof` (`ioTruncated`).  The source then runs
`String::from_utf8(..).unwrap()`: on a body that is not valid UTF-8 the
`unwrap` panics, modelled by `PErr.panic`.  On success it returns the
comma-split token list and the consumed byte count `4 + length`. -/
def parse_name_list (pkt : BinaryPacket) (offset : Nat) :
    Except PErr (List (List Nat) × Nat) :=
  if pkt.payload.length < offset + 4 then .error .ioTruncated
  else
    let length := be32 ((pkt.payload.drop offset).take 4)
    if pkt.payload.length < offset + 4 + length then .error .ioTruncated
    else
      let body := (pkt.payload.drop (offset + 4)).take length
      if utf8Valid body then .ok (splitOnComma body, 4 + length)
      else .error .panic

/-- The `struct SshMsgKexInit` of the source, generic in the token
representation: the wire parser produces tokens as UTF-8 byte lists
(`List Nat`), the evaluator consumes them as `String`. -/
structure SshMsgKexInit (α : Type) where
  msg_type : Nat
  cookie : List Nat
  kex_algorithms : List α
  server_host_key_algorithms : List α
  encryption_algorithms_client_to_server : List α
  encryption_algorithms_server_to_client : List α
  mac_algorithms_client_to_server : List α
  mac_algorithms_server_to_client : List α
  compression_algorithms_client_to_server : List α
  compression_algorithms_server_to_client : List α
  languages_client_to_server : List α
  languages_server_to_client : List α
  first_kex_packet_follows : Bool
  flags : Nat
deriving DecidableEq, Repr

/-- Embedding of `parse_kex_init`.  The fixed-width reads
(`payload[0]`, `payload[1..17]`, `payload[offset]` for the flag, and
the four reserved bytes) are unchecked in the source and panic when the
payload is too short — modelled by `PErr.panic`; the ten name-list
fields go through `parse_name_list` and propagate its errors.  Rust
indexing `payload[i]` is rendered as `(payload.drop i).headD 0`, valid
under the guard that rules the panic out. -/
def parse_kex_init (pkt : BinaryPacket) : Except PErr (SshMsgKexInit (List Nat)) :=
  let p := pkt.payload
  if p.length < 1 then .error .panic
  else if p.length < 17 then .error .panic
  else
    match parse_name_list pkt 17 with
    | .error e => .error e
    | .ok (kex_algorithms, len1) =>
      match parse_name_list pkt (17 + len1) with
      | .error e => .error e
      | .ok (server_host_key_algorithms, len2) =>
        match parse_name_list pkt (17 + len1 + len2) with
        | .error e => .error e
        | .ok (encryption_algorithms_client_to_server, len3) =>
          match parse_name_list pkt (17 + len1 + len2 + len3) with
          | .error e => .error e
          | .ok (encryption_algorithms_server_to_client, len4) =>
            match parse_name_list pkt (17 + len1 + len2 + len3 + len4) with
            | .error e => .error e
            | .ok (mac_algorithms_client_to_server, len5) =>
              match parse_name_list pkt (17 + len1 + len2 + len3 + len4 + len5) with
              | .error e => .error e
              | .ok (mac_algorithms_server_to_client, len6) =>
                match parse_name_list pkt (17 + len1 + len2 + len3 + len4 + len5 + len6) with
                | .error e => .error e
                | .ok (compression_algorithms_client_to_server, len7) =>
                  match parse_name_list pkt (17 + len1 + len2 + len3 + len4 + len5 + len6 + len7) with
                  | .error e => .error e
                  | .ok (compression_algorithms_server_to_client, len8) =>
                    match parse_name_list pkt (17 + len1 + len2 + len3 + len4 + len5 + len6 + len7 + len8) with
                    | .error e => .error e
                    | .ok (languages_client_to_server, len9) =>
                      match parse_name_list pkt (17 + len1 + len2 + len3 + len4 + len5 + len6 + len7 + len8 + len9) with
                      | .error e => .error e
                      | .ok (languages_server_to_client, len10) =>
                        let o := 17 + len1 + len2 + len3 + len4 + len5 + len6 + len7 + len8 + len9 + len10
                        if p.length ≤ o then .error .panic
                        else if p.length < o + 1 + 4 then .error .panic
                        else
                          .ok { msg_type := (p.drop 0).headD 0,
                                cookie := (p.drop 1).take 16,
                                kex_algorithms := kex_algorithms,
                                server_host_key_algorithms := server_host_key_algorithms,
                                encryption_algorithms_client_to_server :=
                                  encryption_algorithms_client_to_server,
                                encryption_algorithms_server_to_client :=
                                  encryption_algorithms_server_to_client,
                                mac_algorithms_client_to_server :=
                                  mac_algorithms_client_to_server,
                                mac_algorithms_server_to_client :=
                                  mac_algorithms_server_to_client,
                                compression_algorithms_client_to_server :=
                                  compression_algorithms_client_to_server,
                                compression_algorithms_server_to_client :=
                                  compression_algorithms_server_to_client,
                                languages_client_to_server := languages_client_to_server,
                                languages_server_to_client := languages_server_to_client,
                                first_kex_packet_follows := ((p.drop o).headD 0) != 0,
                                flags := be32 ((p.drop (o + 1)).take 4) }

/-- Embedding of `receive_remote_kex_init`: the packet skip-loop.  The
source loop reads a packet and tests `pkt.payload[0] == 20`, with no
emptiness check on the payload — an empty payload panics (`PErr.panic`).
The loop has no bound in the source; `fuel` bounds the number of
iterations of the model, `none` meaning the loop is still running after
`fuel` packets. -/
def receive_remote_kex_init (fuel : Nat) (s : List Nat) :
    Option (Except PErr (SshMsgKexInit (List Nat))) :=
  match fuel with
  | 0 => none
  | f + 1 =>
    match read_single_packet s with
    | .error e => some (.error e)
    | .ok (pkt, rest) =>
      match pkt.payload with
      | [] => some (.error .panic)
      | b :: _ =>
        if b = 20 then some (parse_kex_init pkt)
        else receive_remote_kex_init f rest

/-- The `enum ScanMode` of the source.  `ServerScan` means the tool connects
out (it acts as a client scanning a server); `ClientScan` means it
listens and accepts (it acts as a server scanning a client). -/
inductive ScanMode where
  | ServerScan : ScanMode
  | ClientScan : ScanMode
deriving DecidableEq, Repr, BEq

/-- Rust `str::ends_with(suffix)`: character-level suffix test.  (Defined
on the character lists underlying `String` so that it evaluates by
kernel reduction; it agrees with the byte-level test Rust performs.) -/
def rEndsWith (s t : String) : Bool := t.data.isSuffixOf s.data

/-- Rust `str::starts_with(arg)`: character-level test of a leading
occurrence. -/
def rStartsWith (s t : String) : Bool := t.data.isPrefixOf s.data

/-- The Unicode `White_Space` set, which the Rust `char::is_whitespace`
(and hence `str::trim`) uses. -/
def rustWhitespace (c : Char) : Bool :=
  c = '\u0009' || c = '\u000A' || c = '\u000B' || c = '\u000C' || c = '\u000D' ||
  c = ' ' || c = '\u0085' || c = '\u00A0' || c = '\u1680' ||
  ('\u2000' ≤ c && c ≤ '\u200A') || c = '\u2028' || c = '\u2029' ||
  c = '\u202F' || c = '\u205F' || c = '\u3000'

/-- Rust `str::trim`: drop leading and trailing `White_Space`
characters. -/
def rTrim (s : String) : String :=
  String.mk (((s.data.dropWhile rustWhitespace).reverse.dropWhile rustWhitespace).reverse)

def CHACHA20_POLY1305 : String := "chacha20-poly1305@openssh.com"
def ETM_SUFFIX : String := "-etm@openssh.com"
def CBC_SUFFIX : String := "-cbc"
def KEX_STRICT_INDICATOR_CLIENT : String := "kex-strict-c-v00@openssh.com"
def KEX_STRICT_INDICATOR_SERVER : String := "kex-strict-s-v00@openssh.com"

/-- The `supports_chacha20` expression of `scan_with_timeout`
(lines 73-78 of the source). -/
def supports_chacha20 (k : SshMsgKexInit String) : Bool :=
  k.encryption_algorithms_client_to_server.contains CHACHA20_POLY1305 ||
  k.encryption_algorithms_server_to_client.contains CHACHA20_POLY1305

/-- The `supports_cbc_etm` expression of `scan_with_timeout`
(lines 79-94 of the source). -/
def supports_cbc_etm (k : SshMsgKexInit String) : Bool :=
  (k.encryption_algorithms_client_to_server.any (fun alg => rEndsWith alg CBC_SUFFIX) &&
   k.mac_algorithms_client_to_server.any (fun alg => rEndsWith alg ETM_SUFFIX)) ||
  (k.encryption_algorithms_server_to_client.any (fun alg => rEndsWith alg CBC_SUFFIX) &&
   k.mac_algorithms_server_to_client.any (fun alg => rEndsWith alg ETM_SUFFIX))

/-- The `supports_strict_kex` expression of `scan_with_timeout`
(lines 95-101 of the source). -/
def supports_strict_kex (scan_mode : ScanMode) (k : SshMsgKexInit String) : Bool :=
  k.kex_algorithms.contains KEX_STRICT_INDICATOR_SERVER ||
  (scan_mode == ScanMode.ClientScan &&
   k.kex_algorithms.contains KEX_STRICT_INDICATOR_CLIENT)

/-- The `struct Report` of the source. -/
structure Report where
  remote_addr : String
  is_server : Bool
  banner : String
  supports_chacha20 : Bool
  supports_cbc_etm : Bool
  supports_strict_kex : Bool
  vulnerable : Bool
deriving DecidableEq, Repr

/-- Embeds `Report::is_vulnerable` of the source (lines 42-44). -/
def Report.is_vulnerable (r : Report) : Bool :=
  (r.supports_chacha20 || r.supports_cbc_etm) && !r.supports_strict_kex

/-- Embeds `serialize_is_vulnerable` of the source (lines 34-39): the custom
serializer for the `vulnerable` field emits `report.is_vulnerable()`;
the boolean it writes is the one modelled here. -/
def serialize_is_vulnerable (report : Report) : Bool :=
  report.is_vulnerable

/-- Values appearing in the serialized JSON report. -/
inductive JVal where
  | s : String → JVal
  | b : Bool → JVal
deriving DecidableEq, Repr

/-- Serde serialization of `Report` as the ordered field list the
`#[derive(Serialize)]` on the source struct produces; every field is
emitted from the stored value of the struct except `vulnerable`, whose
`#[serde(serialize_with = "serialize_is_vulnerable")]` attribute routes
it through `serialize_is_vulnerable`. -/
def serializeReport (r : Report) : List (String × JVal) :=
  [("remote_addr", .s r.remote_addr),
   ("is_server", .b r.is_server),
   ("banner", .s r.banner),
   ("supports_chacha20", .b r.supports_chacha20),
   ("supports_cbc_etm", .b r.supports_cbc_etm),
   ("supports_strict_kex", .b r.supports_strict_kex),
   ("vulnerable", .b (serialize_is_vulnerable r))]

/-- The `Report` value `scan_with_timeout` builds (lines 103-111): the
three flags come from the evaluator expressions and the stored
`vulnerable` field is set to `false` (the source comment says it is
computed dynamically during serialization). -/
def mkReport (address : String) (scan_mode : ScanMode) (banner : String)
    (k : SshMsgKexInit String) : Report :=
  { remote_addr := address,
    is_server := scan_mode == ScanMode.ServerScan,
    banner := banner,
    supports_chacha20 := supports_chacha20 k,
    supports_cbc_etm := supports_cbc_etm k,
    supports_strict_kex := supports_strict_kex scan_mode k,
    vulnerable := false }

/-- The banner this tool writes first (line 171 of the source),
CR-LF terminated. -/
def tool_banner : String := "SSH-2.0-TerrapinVulnerabilityScanner\r\n"

/-- The prefix test of the banner loop (line 177 of the source). -/
def bannerMatches (line : String) : Bool :=
  rStartsWith line "SSH-1.99" || rStartsWith line "SSH-2.0"

/-- The reading half of `exchange_banners`, as a function of the
sequence of lines the peer sends: return the first line passing
`bannerMatches`, trimmed (`line.trim()`, embedded as `rTrim`), discarding the lines before
it; `none` models the loop never returning (no matching line ever
arrives). -/
def findBanner : List String → Option String
  | [] => none
  | l :: ls => if bannerMatches l then some (rTrim l) else findBanner ls

/-- Embedding of `exchange_banners` (lines 169-181): first component is
the byte string written to the peer before any read, second is the
banner captured from the lines of the peer. -/
def exchange_banners (input : List String) : String × Option String :=
  (tool_banner, findBanner input)

/-! ### Helper lemmas about the wire-format functions -/


/-- The SSH name-list wire encoding of a body: 4-byte big-endian length
followed by the body bytes. -/
def encNL (body : List Nat) : List Nat := be32enc body.length ++ body

/-- A body a name-list field can carry without error: representable
length and valid UTF-8. -/
abbrev goodBody (b : List Nat) : Prop := b.length < 2 ^ 32 ∧ utf8Valid b = true

/-- The remaining bytes are too short for a name-list field: either no
room for the 4-byte length, or no room for the announced body. -/
abbrev truncCond (tail : List Nat) : Prop :=
  tail.length < 4 ∨ tail.length < 4 + be32 (tail.take 4)

/-- Comma-joining of a token list (the inverse image used by the
round-trip property; the Rust `Vec<String>` join with `","`). -/
def joinComma : List (List Nat) → List Nat
  | [] => []
  | [t] => t
  | t :: t2 :: r => t ++ 44 :: joinComma (t2 :: r)

/-- A `SshMsgKexInit String` record with the five lists the evaluator
inspects; all other fields fixed (they do not enter the evaluator). -/
def sampleKex (kex enc1 enc2 mac1 mac2 : List String) : SshMsgKexInit String :=
  { msg_type := 20,
    cookie := [],
    kex_algorithms := kex,
    server_host_key_algorithms := [],
    encryption_algorithms_client_to_server := enc1,
    encryption_algorithms_server_to_client := enc2,
    mac_algorithms_client_to_server := mac1,
    mac_algorithms_server_to_client := mac2,
    compression_algorithms_client_to_server := [],
    compression_algorithms_server_to_client := [],
    languages_client_to_server := [],
    languages_server_to_client := [],
    first_kex_packet_follows := false,
    flags := 0 }


/-! ### Theorems -/

theorem be32_be32enc (n : Nat) (h : n < 2 ^ 32) : be32 (be32enc n) = n := by
  simp only [be32, be32enc, List.foldl]
  omega

theorem be32enc_length (n : Nat) : (be32enc n).length = 4 := rfl

theorem splitOnComma_ne_nil (l : List Nat) : splitOnComma l ≠ [] := by
  cases l with
  | nil => simp [splitOnComma]
  | cons b r =>
    simp only [splitOnComma]
    split
    · simp
    · cases h : splitOnComma r <;> simp

theorem splitOnComma_commaFree (t : List Nat) (h : ∀ c ∈ t, c ≠ 44) :
    splitOnComma t = [t] := by
  induction t with
  | nil => rfl
  | cons b r ih =>
    have hb : b ≠ 44 := h b (by simp)
    have hr := ih (fun c hc => h c (by simp [hc]))
    simp [splitOnComma, hb, hr]

theorem splitOnComma_append (t w : List Nat) (h : ∀ c ∈ t, c ≠ 44) :
    splitOnComma (t ++ 44 :: w) = t :: splitOnComma w := by
  induction t with
  | nil => simp [splitOnComma]
  | cons b r ih =>
    have hb : b ≠ 44 := h b (by simp)
    have hr := ih (fun c hc => h c (by simp [hc]))
    simp [splitOnComma, hb, hr]

theorem splitOnComma_joinComma (ts : List (List Nat)) (hne : ts ≠ [])
    (h : ∀ t ∈ ts, ∀ c ∈ t, c ≠ 44) :
    splitOnComma (joinComma ts) = ts := by
  induction ts with
  | nil => exact absurd rfl hne
  | cons t rest ih =>
    cases rest with
    | nil => simpa [joinComma] using splitOnComma_commaFree t (h t (by simp))
    | cons t2 r2 =>
      rw [show joinComma (t :: t2 :: r2) = t ++ 44 :: joinComma (t2 :: r2) from rfl,
        splitOnComma_append t _ (h t (by simp)),
        ih (by simp) (fun u hu c hc => h u (by simp [hu]) c hc)]

theorem mem_joinComma (ts : List (List Nat)) (c : Nat) (hc : c ∈ joinComma ts) :
    c = 44 ∨ ∃ t ∈ ts, c ∈ t := by
  induction ts with
  | nil => simp [joinComma] at hc
  | cons t rest ih =>
    cases rest with
    | nil => exact Or.inr ⟨t, by simp, by simpa [joinComma] using hc⟩
    | cons t2 r2 =>
      rw [show joinComma (t :: t2 :: r2) = t ++ 44 :: joinComma (t2 :: r2) from rfl] at hc
      rcases List.mem_append.1 hc with h1 | h2
      · exact Or.inr ⟨t, by simp, h1⟩
      · rcases List.mem_cons.1 h2 with h3 | h4
        · exact Or.inl h3
        · rcases ih h4 with h5 | ⟨u, hu, hcu⟩
          · exact Or.inl h5
          · exact Or.inr ⟨u, by simp [hu], hcu⟩

theorem ascii_utf8Valid : ∀ l : List Nat, (∀ c ∈ l, c < 128) → utf8Valid l = true
  | [], _ => rfl
  | b :: r, h => by
    have hb : b < 128 := h b (by simp)
    have hr : utf8Valid r = true := ascii_utf8Valid r (fun c hc => h c (by simp [hc]))
    rw [utf8Valid, utf8Run.eq_4, if_pos (by omega)]
    exact hr

theorem nameListStep (pkt : BinaryPacket) (o : Nat) (body rest : List Nat)
    (hd : pkt.payload.drop o = encNL body ++ rest)
    (hb : body.length < 2 ^ 32) (hv : utf8Valid body = true) :
    parse_name_list pkt o = .ok (splitOnComma body, 4 + body.length) := by
  have hd' : pkt.payload.drop o = be32enc body.length ++ (body ++ rest) := by
    rw [hd, encNL, List.append_assoc]
  have hlen : pkt.payload.length = o + 4 + body.length + rest.length := by
    have h1 := congrArg List.length hd'
    simp [be32enc] at h1
    omega
  have hTake : (pkt.payload.drop o).take 4 = be32enc body.length := by
    rw [hd', show (4 : Nat) = (be32enc body.length).length from rfl, List.take_left]
  have hDrop4 : pkt.payload.drop (o + 4) = body ++ rest := by
    have h2 : (pkt.payload.drop o).drop 4 = body ++ rest := by
      rw [hd', show (4 : Nat) = (be32enc body.length).length from rfl, List.drop_left]
    rw [← h2, List.drop_drop, Nat.add_comm]
  have hBody : (pkt.payload.drop (o + 4)).take body.length = body := by
    rw [hDrop4, List.take_left]
  simp only [parse_name_list, hTake, be32_be32enc body.length hb, hBody, hv, if_true]
  rw [if_neg (by omega), if_neg (by omega)]

theorem nameListTrunc (pkt : BinaryPacket) (o : Nat) (tail : List Nat)
    (ho : o ≤ pkt.payload.length)
    (hd : pkt.payload.drop o = tail)
    (ht : truncCond tail) :
    parse_name_list pkt o = .error .ioTruncated := by
  have hlen : pkt.payload.length = o + tail.length := by
    have h1 := congrArg List.length hd
    simp at h1
    omega
  rcases ht with ht | ht
  · simp only [parse_name_list]
    rw [if_pos (by omega)]
  · by_cases h4 : pkt.payload.length < o + 4
    · simp only [parse_name_list]
      rw [if_pos h4]
    · simp only [parse_name_list, hd]
      rw [if_neg h4, if_pos (by omega)]

theorem drop_after_encNL (p : List Nat) (o : Nat) (b R : List Nat)
    (hd : p.drop o = encNL b ++ R) :
    p.drop (o + (4 + b.length)) = R := by
  have hlen4 : (4 + b.length : Nat) = (encNL b).length := by
    simp [encNL, be32enc]
    omega
  have h1 : (p.drop o).drop (4 + b.length) = R := by
    rw [hd, hlen4, List.drop_left]
  rw [← h1, List.drop_drop, Nat.add_comm]

/-- A well-formed KEXINIT payload (tag byte, 16-byte cookie, ten
encoded name-lists, flag byte, 4 reserved bytes) decodes to exactly the
record its pieces dictate. -/
theorem parse_kex_init_wellFormed (pkt : BinaryPacket) (t flag r1 r2 r3 r4 : Nat)
    (cookie b1 b2 b3 b4 b5 b6 b7 b8 b9 b10 : List Nat)
    (hc : cookie.length = 16)
    (h1 : goodBody b1) (h2 : goodBody b2) (h3 : goodBody b3) (h4 : goodBody b4)
    (h5 : goodBody b5) (h6 : goodBody b6) (h7 : goodBody b7) (h8 : goodBody b8)
    (h9 : goodBody b9) (h10 : goodBody b10)
    (hp : pkt.payload = (t :: cookie) ++ (encNL b1 ++ (encNL b2 ++ (encNL b3 ++ (encNL b4 ++
      (encNL b5 ++ (encNL b6 ++ (encNL b7 ++ (encNL b8 ++ (encNL b9 ++ (encNL b10 ++
      flag :: [r1, r2, r3, r4]))))))))))) :
    parse_kex_init pkt = .ok
      { msg_type := t,
        cookie := cookie,
        kex_algorithms := splitOnComma b1,
        server_host_key_algorithms := splitOnComma b2,
        encryption_algorithms_client_to_server := splitOnComma b3,
        encryption_algorithms_server_to_client := splitOnComma b4,
        mac_algorithms_client_to_server := splitOnComma b5,
        mac_algorithms_server_to_client := splitOnComma b6,
        compression_algorithms_client_to_server := splitOnComma b7,
        compression_algorithms_server_to_client := splitOnComma b8,
        languages_client_to_server := splitOnComma b9,
        languages_server_to_client := splitOnComma b10,
        first_kex_packet_follows := flag != 0,
        flags := be32 [r1, r2, r3, r4] } := by
  have hd1 : pkt.payload.drop 17 = encNL b1 ++ (encNL b2 ++ (encNL b3 ++ (encNL b4 ++
      (encNL b5 ++ (encNL b6 ++ (encNL b7 ++ (encNL b8 ++ (encNL b9 ++ (encNL b10 ++
      flag :: [r1, r2, r3, r4]))))))))) := by
    rw [hp, show (17 : Nat) = (t :: cookie).length from by simp [hc], List.drop_left]
  have st1 := nameListStep pkt 17 b1 _ hd1 h1.1 h1.2
  have hd2 := drop_after_encNL _ _ _ _ hd1
  have st2 := nameListStep pkt (17 + (4 + b1.length)) b2 _ hd2 h2.1 h2.2
  have hd3 := drop_after_encNL _ _ _ _ hd2
  have st3 := nameListStep pkt (17 + (4 + b1.length) + (4 + b2.length)) b3 _ hd3 h3.1 h3.2
  have hd4 := drop_after_encNL _ _ _ _ hd3
  have st4 := nameListStep pkt (17 + (4 + b1.length) + (4 + b2.length) + (4 + b3.length))
    b4 _ hd4 h4.1 h4.2
  have hd5 := drop_after_encNL _ _ _ _ hd4
  have st5 := nameListStep pkt
    (17 + (4 + b1.length) + (4 + b2.length) + (4 + b3.length) + (4 + b4.length))
    b5 _ hd5 h5.1 h5.2
  have hd6 := drop_after_encNL _ _ _ _ hd5
  have st6 := nameListStep pkt
    (17 + (4 + b1.length) + (4 + b2.length) + (4 + b3.length) + (4 + b4.length) +
      (4 + b5.length))
    b6 _ hd6 h6.1 h6.2
  have hd7 := drop_after_encNL _ _ _ _ hd6
  have st7 := nameListStep pkt
    (17 + (4 + b1.length) + (4 + b2.length) + (4 + b3.length) + (4 + b4.length) +
      (4 + b5.length) + (4 + b6.length))
    b7 _ hd7 h7.1 h7.2
  have hd8 := drop_after_encNL _ _ _ _ hd7
  have st8 := nameListStep pkt
    (17 + (4 + b1.length) + (4 + b2.length) + (4 + b3.length) + (4 + b4.length) +
      (4 + b5.length) + (4 + b6.length) + (4 + b7.length))
    b8 _ hd8 h8.1 h8.2
  have hd9 := drop_after_encNL _ _ _ _ hd8
  have st9 := nameListStep pkt
    (17 + (4 + b1.length) + (4 + b2.length) + (4 + b3.length) + (4 + b4.length) +
      (4 + b5.length) + (4 + b6.length) + (4 + b7.length) + (4 + b8.length))
    b9 _ hd9 h9.1 h9.2
  have hd10 := drop_after_encNL _ _ _ _ hd9
  have st10 := nameListStep pkt
    (17 + (4 + b1.length) + (4 + b2.length) + (4 + b3.length) + (4 + b4.length) +
      (4 + b5.length) + (4 + b6.length) + (4 + b7.length) + (4 + b8.length) +
      (4 + b9.length))
    b10 _ hd10 h10.1 h10.2
  have hd11 := drop_after_encNL _ _ _ _ hd10
  have hlen := congrArg List.length hp
  simp [encNL, be32enc] at hlen
  have hmsg : (pkt.payload.drop 0).headD 0 = t := by
    rw [List.drop_zero, hp]
    rfl
  have hcook : (pkt.payload.drop 1).take 16 = cookie := by
    rw [hp, List.cons_append, show (1 : Nat) = 0 + 1 from rfl, List.drop_succ_cons,
      List.drop_zero, ← hc, List.take_left]
  have hflag : (pkt.payload.drop
      (17 + (4 + b1.length) + (4 + b2.length) + (4 + b3.length) + (4 + b4.length) +
        (4 + b5.length) + (4 + b6.length) + (4 + b7.length) + (4 + b8.length) +
        (4 + b9.length) + (4 + b10.length))).headD 0 = flag := by
    rw [hd11]
    rfl
  have hres : pkt.payload.drop
      (17 + (4 + b1.length) + (4 + b2.length) + (4 + b3.length) + (4 + b4.length) +
        (4 + b5.length) + (4 + b6.length) + (4 + b7.length) + (4 + b8.length) +
        (4 + b9.length) + (4 + b10.length) + 1) = [r1, r2, r3, r4] := by
    have h := congrArg (List.drop 1) hd11
    rw [List.drop_drop] at h
    simpa using h
  simp only [parse_kex_init, st1, st2, st3, st4, st5, st6, st7, st8, st9, st10]
  rw [if_neg (by omega), if_neg (by omega), if_neg (by omega), if_neg (by omega),
    hmsg, hcook, hflag, hres]
  rfl


/-- Truncation at name-list field 1 of `parse_kex_init` yields the
`UnexpectedEof` (`ioTruncated`) error of `parse_name_list`. -/
theorem kexTrunc0 (pkt : BinaryPacket) (t : Nat)
    (cookie tail : List Nat)
    (hc : cookie.length = 16)
    (hp : pkt.payload = (t :: cookie) ++ tail)
    (ht : truncCond tail) :
    parse_kex_init pkt = .error PErr.ioTruncated := by
  have hd1 : pkt.payload.drop 17 = tail := by
    rw [hp, show (17 : Nat) = (t :: cookie).length from by simp [hc], List.drop_left]
  have hlen := congrArg List.length hp
  simp [encNL, be32enc] at hlen
  have stT := nameListTrunc pkt _ tail (by omega) hd1 ht
  simp only [parse_kex_init, stT]
  rw [if_neg (by omega), if_neg (by omega)]

/-- Truncation at name-list field 2 of `parse_kex_init` yields the
`UnexpectedEof` (`ioTruncated`) error of `parse_name_list`. -/
theorem kexTrunc1 (pkt : BinaryPacket) (t : Nat)
    (cookie b1 tail : List Nat)
    (hc : cookie.length = 16)
    (h1 : goodBody b1)
    (hp : pkt.payload = (t :: cookie) ++ (encNL b1 ++ (tail)))
    (ht : truncCond tail) :
    parse_kex_init pkt = .error PErr.ioTruncated := by
  have hd1 : pkt.payload.drop 17 = encNL b1 ++ (tail) := by
    rw [hp, show (17 : Nat) = (t :: cookie).length from by simp [hc], List.drop_left]
  have st1 := nameListStep pkt _ b1 _ hd1 h1.1 h1.2
  have hd2 := drop_after_encNL _ _ _ _ hd1
  have hlen := congrArg List.length hp
  simp [encNL, be32enc] at hlen
  have stT := nameListTrunc pkt _ tail (by omega) hd2 ht
  simp only [parse_kex_init, st1, stT]
  rw [if_neg (by omega), if_neg (by omega)]

/-- Truncation at name-list field 3 of `parse_kex_init` yields the
`UnexpectedEof` (`ioTruncated`) error of `parse_name_list`. -/
theorem kexTrunc2 (pkt : BinaryPacket) (t : Nat)
    (cookie b1 b2 tail : List Nat)
    (hc : cookie.length = 16)
    (h1 : goodBody b1)
    (h2 : goodBody b2)
    (hp : pkt.payload = (t :: cookie) ++ (encNL b1 ++ (encNL b2 ++ (tail))))
    (ht : truncCond tail) :
    parse_kex_init pkt = .error PErr.ioTruncated := by
  have hd1 : pkt.payload.drop 17 = encNL b1 ++ (encNL b2 ++ (tail)) := by
    rw [hp, show (17 : Nat) = (t :: cookie).length from by simp [hc], List.drop_left]
  have st1 := nameListStep pkt _ b1 _ hd1 h1.1 h1.2
  have hd2 := drop_after_encNL _ _ _ _ hd1
  have st2 := nameListStep pkt _ b2 _ hd2 h2.1 h2.2
  have hd3 := drop_after_encNL _ _ _ _ hd2
  have hlen := congrArg List.length hp
  simp [encNL, be32enc] at hlen
  have stT := nameListTrunc pkt _ tail (by omega) hd3 ht
  simp only [parse_kex_init, st1, st2, stT]
  rw [if_neg (by omega), if_neg (by omega)]

/-- Truncation at name-list field 4 of `parse_kex_init` yields the
`UnexpectedEof` (`ioTruncated`) error of `parse_name_list`. -/
theorem kexTrunc3 (pkt : BinaryPacket) (t : Nat)
    (cookie b1 b2 b3 tail : List Nat)
    (hc : cookie.length = 16)
    (h1 : goodBody b1)
    (h2 : goodBody b2)
    (h3 : goodBody b3)
    (hp : pkt.payload = (t :: cookie) ++ (encNL b1 ++ (encNL b2 ++ (encNL b3 ++ (tail)))))
    (ht : truncCond tail) :
    parse_kex_init pkt = .error PErr.ioTruncated := by
  have hd1 : pkt.payload.drop 17 = encNL b1 ++ (encNL b2 ++ (encNL b3 ++ (tail))) := by
    rw [hp, show (17 : Nat) = (t :: cookie).length from by simp [hc], List.drop_left]
  have st1 := nameListStep pkt _ b1 _ hd1 h1.1 h1.2
  have hd2 := drop_after_encNL _ _ _ _ hd1
  have st2 := nameListStep pkt _ b2 _ hd2 h2.1 h2.2
  have hd3 := drop_after_encNL _ _ _ _ hd2
  have st3 := nameListStep pkt _ b3 _ hd3 h3.1 h3.2
  have hd4 := drop_after_encNL _ _ _ _ hd3
  have hlen := congrArg List.length hp
  simp [encNL, be32enc] at hlen
  have stT := nameListTrunc pkt _ tail (by omega) hd4 ht
  simp only [parse_kex_init, st1, st2, st3, stT]
  rw [if_neg (by omega), if_neg (by omega)]

/-- Truncation at name-list field 5 of `parse_kex_init` yields the
`UnexpectedEof` (`ioTruncated`) error of `parse_name_list`. -/
theorem kexTrunc4 (pkt : BinaryPacket) (t : Nat)
    (cookie b1 b2 b3 b4 tail : List Nat)
    (hc : cookie.length = 16)
    (h1 : goodBody b1)
    (h2 : goodBody b2)
    (h3 : goodBody b3)
    (h4 : goodBody b4)
    (hp : pkt.payload = (t :: cookie) ++ (encNL b1 ++ (encNL b2 ++ (encNL b3 ++ (encNL b4 ++ (tail))))))
    (ht : truncCond tail) :
    parse_kex_init pkt = .error PErr.ioTruncated := by
  have hd1 : pkt.payload.drop 17 = encNL b1 ++ (encNL b2 ++ (encNL b3 ++ (encNL b4 ++ (tail)))) := by
    rw [hp, show (17 : Nat) = (t :: cookie).length from by simp [hc], List.drop_left]
  have st1 := nameListStep pkt _ b1 _ hd1 h1.1 h1.2
  have hd2 := drop_after_encNL _ _ _ _ hd1
  have st2 := nameListStep pkt _ b2 _ hd2 h2.1 h2.2
  have hd3 := drop_after_encNL _ _ _ _ hd2
  have st3 := nameListStep pkt _ b3 _ hd3 h3.1 h3.2
  have hd4 := drop_after_encNL _ _ _ _ hd3
  have st4 := nameListStep pkt _ b4 _ hd4 h4.1 h4.2
  have hd5 := drop_after_encNL _ _ _ _ hd4
  have hlen := congrArg List.length hp
  simp [encNL, be32enc] at hlen
  have stT := nameListTrunc pkt _ tail (by omega) hd5 ht
  simp only [parse_kex_init, st1, st2, st3, st4, stT]
  rw [if_neg (by omega), if_neg (by omega)]

/-- Truncation at name-list field 6 of `parse_kex_init` yields the
`UnexpectedEof` (`ioTruncated`) error of `parse_name_list`. -/
theorem kexTrunc5 (pkt : BinaryPacket) (t : Nat)
    (cookie b1 b2 b3 b4 b5 tail : List Nat)
    (hc : cookie.length = 16)
    (h1 : goodBody b1)
    (h2 : goodBody b2)
    (h3 : goodBody b3)
    (h4 : goodBody b4)
    (h5 : goodBody b5)
    (hp : pkt.payload = (t :: cookie) ++ (encNL b1 ++ (encNL b2 ++ (encNL b3 ++ (encNL b4 ++ (encNL b5 ++ (tail)))))))
    (ht : truncCond tail) :
    parse_kex_init pkt = .error PErr.ioTruncated := by
  have hd1 : pkt.payload.drop 17 = encNL b1 ++ (encNL b2 ++ (encNL b3 ++ (encNL b4 ++ (encNL b5 ++ (tail))))) := by
    rw [hp, show (17 : Nat) = (t :: cookie).length from by simp [hc], List.drop_left]
  have st1 := nameListStep pkt _ b1 _ hd1 h1.1 h1.2
  have hd2 := drop_after_encNL _ _ _ _ hd1
  have st2 := nameListStep pkt _ b2 _ hd2 h2.1 h2.2
  have hd3 := drop_after_encNL _ _ _ _ hd2
  have st3 := nameListStep pkt _ b3 _ hd3 h3.1 h3.2
  have hd4 := drop_after_encNL _ _ _ _ hd3
  have st4 := nameListStep pkt _ b4 _ hd4 h4.1 h4.2
  have hd5 := drop_after_encNL _ _ _ _ hd4
  have st5 := nameListStep pkt _ b5 _ hd5 h5.1 h5.2
  have hd6 := drop_after_encNL _ _ _ _ hd5
  have hlen := congrArg List.length hp
  simp [encNL, be32enc] at hlen
  have stT := nameListTrunc pkt _ tail (by omega) hd6 ht
  simp only [parse_kex_init, st1, st2, st3, st4, st5, stT]
  rw [if_neg (by omega), if_neg (by omega)]

/-- Truncation at name-list field 7 of `parse_kex_init` yields the
`UnexpectedEof` (`ioTruncated`) error of `parse_name_list`. -/
theorem kexTrunc6 (pkt : BinaryPacket) (t : Nat)
    (cookie b1 b2 b3 b4 b5 b6 tail : List Nat)
    (hc : cookie.length = 16)
    (h1 : goodBody b1)
    (h2 : goodBody b2)
    (h3 : goodBody b3)
    (h4 : goodBody b4)
    (h5 : goodBody b5)
    (h6 : goodBody b6)
    (hp : pkt.payload = (t :: cookie) ++ (encNL b1 ++ (encNL b2 ++ (encNL b3 ++ (encNL b4 ++ (encNL b5 ++ (encNL b6 ++ (tail))))))))
    (ht : truncCond tail) :
    parse_kex_init pkt = .error PErr.ioTruncated := by
  have hd1 : pkt.payload.drop 17 = encNL b1 ++ (encNL b2 ++ (encNL b3 ++ (encNL b4 ++ (encNL b5 ++ (encNL b6 ++ (tail)))))) := by
    rw [hp, show (17 : Nat) = (t :: cookie).length from by simp [hc], List.drop_left]
  have st1 := nameListStep pkt _ b1 _ hd1 h1.1 h1.2
  have hd2 := drop_after_encNL _ _ _ _ hd1
  have st2 := nameListStep pkt _ b2 _ hd2 h2.1 h2.2
  have hd3 := drop_after_encNL _ _ _ _ hd2
  have st3 := nameListStep pkt _ b3 _ hd3 h3.1 h3.2
  have hd4 := drop_after_encNL _ _ _ _ hd3
  have st4 := nameListStep pkt _ b4 _ hd4 h4.1 h4.2
  have hd5 := drop_after_encNL _ _ _ _ hd4
  have st5 := nameListStep pkt _ b5 _ hd5 h5.1 h5.2
  have hd6 := drop_after_encNL _ _ _ _ hd5
  have st6 := nameListStep pkt _ b6 _ hd6 h6.1 h6.2
  have hd7 := drop_after_encNL _ _ _ _ hd6
  have hlen := congrArg List.length hp
  simp [encNL, be32enc] at hlen
  have stT := nameListTrunc pkt _ tail (by omega) hd7 ht
  simp only [parse_kex_init, st1, st2, st3, st4, st5, st6, stT]
  rw [if_neg (by omega), if_neg (by omega)]

/-- Truncation at name-list field 8 of `parse_kex_init` yields the
`UnexpectedEof` (`ioTruncated`) error of `parse_name_list`. -/
theorem kexTrunc7 (pkt : BinaryPacket) (t : Nat)
    (cookie b1 b2 b3 b4 b5 b6 b7 tail : List Nat)
    (hc : cookie.length = 16)
    (h1 : goodBody b1)
    (h2 : goodBody b2)
    (h3 : goodBody b3)
    (h4 : goodBody b4)
    (h5 : goodBody b5)
    (h6 : goodBody b6)
    (h7 : goodBody b7)
    (hp : pkt.payload = (t :: cookie) ++ (encNL b1 ++ (encNL b2 ++ (encNL b3 ++ (encNL b4 ++ (encNL b5 ++ (encNL b6 ++ (encNL b7 ++ (tail)))))))))
    (ht : truncCond tail) :
    parse_kex_init pkt = .error PErr.ioTruncated := by
  have hd1 : pkt.payload.drop 17 = encNL b1 ++ (encNL b2 ++ (encNL b3 ++ (encNL b4 ++ (encNL b5 ++ (encNL b6 ++ (encNL b7 ++ (tail))))))) := by
    rw [hp, show (17 : Nat) = (t :: cookie).length from by simp [hc], List.drop_left]
  have st1 := nameListStep pkt _ b1 _ hd1 h1.1 h1.2
  have hd2 := drop_after_encNL _ _ _ _ hd1
  have st2 := nameListStep pkt _ b2 _ hd2 h2.1 h2.2
  have hd3 := drop_after_encNL _ _ _ _ hd2
  have st3 := nameListStep pkt _ b3 _ hd3 h3.1 h3.2
  have hd4 := drop_after_encNL _ _ _ _ hd3
  have st4 := nameListStep pkt _ b4 _ hd4 h4.1 h4.2
  have hd5 := drop_after_encNL _ _ _ _ hd4
  have st5 := nameListStep pkt _ b5 _ hd5 h5.1 h5.2
  have hd6 := drop_after_encNL _ _ _ _ hd5
  have st6 := nameListStep pkt _ b6 _ hd6 h6.1 h6.2
  have hd7 := drop_after_encNL _ _ _ _ hd6
  have st7 := nameListStep pkt _ b7 _ hd7 h7.1 h7.2
  have hd8 := drop_after_encNL _ _ _ _ hd7
  have hlen := congrArg List.length hp
  simp [encNL, be32enc] at hlen
  have stT := nameListTrunc pkt _ tail (by omega) hd8 ht
  simp only [parse_kex_init, st1, st2, st3, st4, st5, st6, st7, stT]
  rw [if_neg (by omega), if_neg (by omega)]

/-- Truncation at name-list field 9 of `parse_kex_init` yields the
`UnexpectedEof` (`ioTruncated`) error of `parse_name_list`. -/
theorem kexTrunc8 (pkt : BinaryPacket) (t : Nat)
    (cookie b1 b2 b3 b4 b5 b6 b7 b8 tail : List Nat)
    (hc : cookie.length = 16)
    (h1 : goodBody b1)
    (h2 : goodBody b2)
    (h3 : goodBody b3)
    (h4 : goodBody b4)
    (h5 : goodBody b5)
    (h6 : goodBody b6)
    (h7 : goodBody b7)
    (h8 : goodBody b8)
    (hp : pkt.payload = (t :: cookie) ++ (encNL b1 ++ (encNL b2 ++ (encNL b3 ++ (encNL b4 ++ (encNL b5 ++ (encNL b6 ++ (encNL b7 ++ (encNL b8 ++ (tail))))))))))
    (ht : truncCond tail) :
    parse_kex_init pkt = .error PErr.ioTruncated := by
  have hd1 : pkt.payload.drop 17 = encNL b1 ++ (encNL b2 ++ (encNL b3 ++ (encNL b4 ++ (encNL b5 ++ (encNL b6 ++ (encNL b7 ++ (encNL b8 ++ (tail)))))))) := by
    rw [hp, show (17 : Nat) = (t :: cookie).length from by simp [hc], List.drop_left]
  have st1 := nameListStep pkt _ b1 _ hd1 h1.1 h1.2
  have hd2 := drop_after_encNL _ _ _ _ hd1
  have st2 := nameListStep pkt _ b2 _ hd2 h2.1 h2.2
  have hd3 := drop_after_encNL _ _ _ _ hd2
  have st3 := nameListStep pkt _ b3 _ hd3 h3.1 h3.2
  have hd4 := drop_after_encNL _ _ _ _ hd3
  have st4 := nameListStep pkt _ b4 _ hd4 h4.1 h4.2
  have hd5 := drop_after_encNL _ _ _ _ hd4
  have st5 := nameListStep pkt _ b5 _ hd5 h5.1 h5.2
  have hd6 := drop_after_encNL _ _ _ _ hd5
  have st6 := nameListStep pkt _ b6 _ hd6 h6.1 h6.2
  have hd7 := drop_after_encNL _ _ _ _ hd6
  have st7 := nameListStep pkt _ b7 _ hd7 h7.1 h7.2
  have hd8 := drop_after_encNL _ _ _ _ hd7
  have st8 := nameListStep pkt _ b8 _ hd8 h8.1 h8.2
  have hd9 := drop_after_encNL _ _ _ _ hd8
  have hlen := congrArg List.length hp
  simp [encNL, be32enc] at hlen
  have stT := nameListTrunc pkt _ tail (by omega) hd9 ht
  simp only [parse_kex_init, st1, st2, st3, st4, st5, st6, st7, st8, stT]
  rw [if_neg (by omega), if_neg (by omega)]

/-- Truncation at name-list field 10 of `parse_kex_init` yields the
`UnexpectedEof` (`ioTruncated`) error of `parse_name_list`. -/
theorem kexTrunc9 (pkt : BinaryPacket) (t : Nat)
    (cookie b1 b2 b3 b4 b5 b6 b7 b8 b9 tail : List Nat)
    (hc : cookie.length = 16)
    (h1 : goodBody b1)
    (h2 : goodBody b2)
    (h3 : goodBody b3)
    (h4 : goodBody b4)
    (h5 : goodBody b5)
    (h6 : goodBody b6)
    (h7 : goodBody b7)
    (h8 : goodBody b8)
    (h9 : goodBody b9)
    (hp : pkt.payload = (t :: cookie) ++ (encNL b1 ++ (encNL b2 ++ (encNL b3 ++ (encNL b4 ++ (encNL b5 ++ (encNL b6 ++ (encNL b7 ++ (encNL b8 ++ (encNL b9 ++ (tail)))))))))))
    (ht : truncCond tail) :
    parse_kex_init pkt = .error PErr.ioTruncated := by
  have hd1 : pkt.payload.drop 17 = encNL b1 ++ (encNL b2 ++ (encNL b3 ++ (encNL b4 ++ (encNL b5 ++ (encNL b6 ++ (encNL b7 ++ (encNL b8 ++ (encNL b9 ++ (tail))))))))) := by
    rw [hp, show (17 : Nat) = (t :: cookie).length from by simp [hc], List.drop_left]
  have st1 := nameListStep pkt _ b1 _ hd1 h1.1 h1.2
  have hd2 := drop_after_encNL _ _ _ _ hd1
  have st2 := nameListStep pkt _ b2 _ hd2 h2.1 h2.2
  have hd3 := drop_after_encNL _ _ _ _ hd2
  have st3 := nameListStep pkt _ b3 _ hd3 h3.1 h3.2
  have hd4 := drop_after_encNL _ _ _ _ hd3
  have st4 := nameListStep pkt _ b4 _ hd4 h4.1 h4.2
  have hd5 := drop_after_encNL _ _ _ _ hd4
  have st5 := nameListStep pkt _ b5 _ hd5 h5.1 h5.2
  have hd6 := drop_after_encNL _ _ _ _ hd5
  have st6 := nameListStep pkt _ b6 _ hd6 h6.1 h6.2
  have hd7 := drop_after_encNL _ _ _ _ hd6
  have st7 := nameListStep pkt _ b7 _ hd7 h7.1 h7.2
  have hd8 := drop_after_encNL _ _ _ _ hd7
  have st8 := nameListStep pkt _ b8 _ hd8 h8.1 h8.2
  have hd9 := drop_after_encNL _ _ _ _ hd8
  have st9 := nameListStep pkt _ b9 _ hd9 h9.1 h9.2
  have hd10 := drop_after_encNL _ _ _ _ hd9
  have hlen := congrArg List.length hp
  simp [encNL, be32enc] at hlen
  have stT := nameListTrunc pkt _ tail (by omega) hd10 ht
  simp only [parse_kex_init, st1, st2, st3, st4, st5, st6, st7, st8, st9, stT]
  rw [if_neg (by omega), if_neg (by omega)]

/-- Claim C1: the overall verdict satisfies
`vulnerable = (chacha20 OR cbc_etm) AND NOT strict_kex` for every
record, and the serialized `vulnerable` field is always recomputed from
the other three booleans through `Report.is_vulnerable`
(`serialize_is_vulnerable`) during serialization — changing the stored
`vulnerable` field never changes the serialized output, and the report
`scan_with_timeout` builds from a decoded `SshMsgKexInit` serializes the
verdict derived from the three evaluator flags. -/
theorem claim_C1 :
    (∀ r : Report, r.is_vulnerable =
      ((r.supports_chacha20 || r.supports_cbc_etm) && !r.supports_strict_kex)) ∧
    (∀ r : Report, (serializeReport r).lookup "vulnerable" =
      some (.b ((r.supports_chacha20 || r.supports_cbc_etm) && !r.supports_strict_kex))) ∧
    (∀ (r : Report) (b : Bool),
      serializeReport { r with vulnerable := b } = serializeReport r) ∧
    (∀ (addr banner : String) (mode : ScanMode) (k : SshMsgKexInit String),
      (serializeReport (mkReport addr mode banner k)).lookup "vulnerable" =
        some (.b ((supports_chacha20 k || supports_cbc_etm k) &&
          !supports_strict_kex mode k))) := by
  exact ⟨fun r => rfl, fun r => rfl, fun r b => rfl, fun addr banner mode k => rfl⟩

/-- Claim C5: `strict_kex` is set whenever the key-exchange list
contains the server-side indicator; additionally, in the
`ClientScan` role (the tool acting as server, scanning a client) it is
set whenever the list contains the client-side indicator; and in the
`ServerScan` role (tool acting as client) the client-side indicator
alone never sets it. -/
theorem claim_C5 :
    (∀ (mode : ScanMode) (k : SshMsgKexInit String),
      KEX_STRICT_INDICATOR_SERVER ∈ k.kex_algorithms →
        supports_strict_kex mode k = true) ∧
    (∀ k : SshMsgKexInit String,
      KEX_STRICT_INDICATOR_CLIENT ∈ k.kex_algorithms →
        supports_strict_kex ScanMode.ClientScan k = true) ∧
    (∀ k : SshMsgKexInit String,
      KEX_STRICT_INDICATOR_SERVER ∉ k.kex_algorithms →
        supports_strict_kex ScanMode.ServerScan k = false) := by
  refine ⟨fun mode k h => ?_, fun k h => ?_, fun k h => ?_⟩
  · simp [supports_strict_kex, h]
  · simp [supports_strict_kex, h]
    exact Or.inr (by decide)
  · simp [supports_strict_kex, h,
      show (ScanMode.ServerScan == ScanMode.ClientScan) = false from by decide]

/-- Witness for C5 at concrete records: a list with the server
indicator sets the flag in either role, a list with only the client
indicator sets it in `ClientScan` but not in `ServerScan`. -/
theorem claim_C5_witness :
    supports_strict_kex ScanMode.ServerScan
      (sampleKex ["kex-strict-s-v00@openssh.com"] [] [] [] []) = true ∧
    supports_strict_kex ScanMode.ClientScan
      (sampleKex ["kex-strict-c-v00@openssh.com"] [] [] [] []) = true ∧
    supports_strict_kex ScanMode.ServerScan
      (sampleKex ["kex-strict-c-v00@openssh.com"] [] [] [] []) = false :=
  ⟨claim_C5.1 ScanMode.ServerScan _ (by decide),
   claim_C5.2.1 _ (by decide),
   claim_C5.2.2 _ (by decide)⟩

/-- Claim C7: `cbc_etm` is set exactly when some direction pairs a
`-cbc`-suffixed cipher with an `-etm@openssh.com`-suffixed MAC in the
same direction; a CBC cipher in one direction with an ETM MAC only in
the other direction does not set it. -/
theorem claim_C7 :
    (∀ k : SshMsgKexInit String,
      supports_cbc_etm k = true ↔
        ((∃ a ∈ k.encryption_algorithms_client_to_server, rEndsWith a CBC_SUFFIX = true) ∧
         (∃ a ∈ k.mac_algorithms_client_to_server, rEndsWith a ETM_SUFFIX = true)) ∨
        ((∃ a ∈ k.encryption_algorithms_server_to_client, rEndsWith a CBC_SUFFIX = true) ∧
         (∃ a ∈ k.mac_algorithms_server_to_client, rEndsWith a ETM_SUFFIX = true))) ∧
    (∀ k : SshMsgKexInit String,
      (∀ a ∈ k.mac_algorithms_client_to_server, rEndsWith a ETM_SUFFIX = false) →
      (∀ a ∈ k.encryption_algorithms_server_to_client, rEndsWith a CBC_SUFFIX = false) →
      supports_cbc_etm k = false) := by
  constructor
  · intro k
    simp [supports_cbc_etm, List.any_eq_true]
  · intro k hmac henc
    have h1 : k.mac_algorithms_client_to_server.any
        (fun alg => rEndsWith alg ETM_SUFFIX) = false := by
      simp only [List.any_eq_false]
      intro a ha
      simp [hmac a ha]
    have h2 : k.encryption_algorithms_server_to_client.any
        (fun alg => rEndsWith alg CBC_SUFFIX) = false := by
      simp only [List.any_eq_false]
      intro a ha
      simp [henc a ha]
    simp [supports_cbc_etm, h1, h2]

/-- Witness for C7: `aes128-cbc` offered client→server while the only
ETM MAC sits server→client leaves the flag false. -/
theorem claim_C7_witness :
    supports_cbc_etm
      (sampleKex [] ["aes128-cbc"] [] [] ["hmac-sha2-256-etm@openssh.com"]) = false ∧
    ((∃ a ∈ (sampleKex [] ["aes128-cbc"] [] [] ["hmac-sha2-256-etm@openssh.com"]).encryption_algorithms_client_to_server,
        rEndsWith a CBC_SUFFIX = true) ∧
     (∃ a ∈ (sampleKex [] ["aes128-cbc"] [] [] ["hmac-sha2-256-etm@openssh.com"]).mac_algorithms_server_to_client,
        rEndsWith a ETM_SUFFIX = true)) :=
  ⟨claim_C7.2 _ (by decide) (by decide), by decide⟩

/-- Claim C6: the Packet Reader reads the first 4 stream bytes as a
big-endian length and, whenever that declared length exceeds 35000,
fails with the oversized-packet error (`InvalidData`,
`ProtocolError::OversizedPacket` of the specification) regardless of
what — if anything — follows those 4 bytes in the stream: the rejection
happens before any body byte is read. -/
theorem claim_C6 (b0 b1 b2 b3 : Nat) (rest : List Nat)
    (_hb0 : b0 < 256) (_hb1 : b1 < 256) (_hb2 : b2 < 256) (_hb3 : b3 < 256)
    (hover : 35000 < be32 [b0, b1, b2, b3]) :
    read_single_packet (b0 :: b1 :: b2 :: b3 :: rest) = .error PErr.oversized := by
  simp only [read_single_packet]
  rw [if_neg (by simp only [List.length_cons]; omega),
    show (b0 :: b1 :: b2 :: b3 :: rest).take 4 = [b0, b1, b2, b3] from rfl,
    if_pos hover]

/-- Witness for C6: declared length 35001 with an empty remainder (no
body bytes at all) is rejected as oversized. -/
theorem claim_C6_witness :
    read_single_packet [0, 0, 136, 185] = .error PErr.oversized :=
  claim_C6 0 0 136 185 [] (by decide) (by decide) (by decide) (by decide) (by decide)

/-- The reader half returns the first matching line, trimmed, skipping any
earlier lines that do not match. -/
theorem findBanner_append (pre : List String) (l : String) (post : List String)
    (hpre : ∀ x ∈ pre, bannerMatches x = false) (hl : bannerMatches l = true) :
    findBanner (pre ++ l :: post) = some (rTrim l) := by
  induction pre with
  | nil => simp [findBanner, hl]
  | cons x xs ih =>
    have hx : bannerMatches x = false := hpre x (by simp)
    simp only [List.cons_append, findBanner, hx, if_false]
    exact ih (fun y hy => hpre y (by simp [hy]))

/-- Claim C9: the banner exchange first writes its own CR-LF-terminated
`SSH-2.0-` identification line, then returns the first
incoming line beginning with `SSH-2.0` or `SSH-1.99`, trimmed
(`str::trim`; matching lines start with a non-whitespace character, so
only trailing whitespace is actually removed), discarding every
preceding non-matching line. -/
theorem claim_C9 :
    (rStartsWith tool_banner "SSH-2.0-" = true ∧ rEndsWith tool_banner "\r\n" = true) ∧
    (∀ (input : List String), (exchange_banners input).1 = tool_banner) ∧
    (∀ (pre : List String) (l : String) (post : List String),
      (∀ x ∈ pre, bannerMatches x = false) → bannerMatches l = true →
      (exchange_banners (pre ++ l :: post)).2 = some (rTrim l)) :=
  ⟨⟨by decide, by decide⟩, fun input => rfl,
   fun pre l post hpre hl => findBanner_append pre l post hpre hl⟩

/-- Witness for C9: a comment line is skipped and the first `SSH-2.0`
line is returned with its trailing whitespace removed. -/
theorem claim_C9_witness :
    (exchange_banners ["Welcome to my server",
      "SSH-2.0-OpenSSH_9.0 \r\n", "later"]).2 = some "SSH-2.0-OpenSSH_9.0" :=
  (claim_C9.2.2 ["Welcome to my server"] "SSH-2.0-OpenSSH_9.0 \r\n" ["later"]
    (by decide) (by decide)).trans (by decide)

/-- Claim C2 (code evaluation at the failing inputs): on a packet body
whose `padding_length` makes a slice bound exceed the body length the
source does not return a `Malformed` protocol error — it panics.
Stream `[0,0,0,1,1]` declares a 1-byte body `[1]` whose
`padding_length` byte 1 equals the packet length, so the payload slice
`pkt_bytes[1..0]` panics; stream `[0,0,0,2,5,9]` has
`padding_length = 5 > packet_length = 2`, so the slice bound underflows
and panics; stream `[0,0,0,0]` declares a 0-byte body and the read of
`pkt_bytes[0]` itself panics.  `PErr.panic` is distinct from every
returned protocol error. -/
theorem claim_C2_panics :
    read_single_packet [0, 0, 0, 1, 1] = .error PErr.panic ∧
    read_single_packet [0, 0, 0, 2, 5, 9] = .error PErr.panic ∧
    read_single_packet [0, 0, 0, 0] = .error PErr.panic ∧
    PErr.panic ≠ PErr.ioTruncated ∧ PErr.panic ≠ PErr.oversized :=
  ⟨rfl, rfl, rfl, by decide, by decide⟩

/-- Claim C3 (code evaluation at the failing input): a name-list whose
length-prefixed body is in bounds but not valid UTF-8 (the single byte
`0xFF`) makes `String::from_utf8(..).unwrap()` panic; no
`ProtocolError::Encoding` value exists anywhere in the error
repertoire. -/
theorem claim_C3_panics :
    utf8Valid [255] = false ∧
    parse_name_list
      { packet_length := 6, padding_length := 0,
        payload := [0, 0, 0, 1, 255], padding := [], mac := [] } 0 =
      .error PErr.panic ∧
    PErr.panic ≠ PErr.ioTruncated ∧ PErr.panic ≠ PErr.oversized :=
  ⟨rfl, rfl, by decide, by decide⟩

/-- Claim C10: the decode pipeline can panic on successfully read
packets.  (1) `[0,0,0,1,0]` reads as a packet with `packet_length = 1`,
`padding_length = 0` and an empty payload, and the skip-loop read of
`pkt.payload[0]` panics.  (2) A KEXINIT-tagged payload `[20]`
panics at the unchecked 16-byte cookie slice.  (3) A payload with tag,
cookie and ten empty name-lists but no flag byte panics at the
unchecked flag read.  (4) The same payload with the flag byte but
without the 4 reserved bytes panics at the unchecked reserved read. -/
theorem claim_C10 :
    read_single_packet [0, 0, 0, 1, 0] =
      .ok ({ packet_length := 1, padding_length := 0, payload := [],
             padding := [], mac := [] }, []) ∧
    receive_remote_kex_init 1 [0, 0, 0, 1, 0] = some (.error PErr.panic) ∧
    parse_kex_init
      { packet_length := 2, padding_length := 0, payload := [20],
        padding := [], mac := [] } = .error PErr.panic ∧
    parse_kex_init
      { packet_length := 58, padding_length := 0,
        payload := 20 :: List.replicate 56 0, padding := [], mac := [] } =
      .error PErr.panic ∧
    parse_kex_init
      { packet_length := 59, padding_length := 0,
        payload := 20 :: List.replicate 57 0, padding := [], mac := [] } =
      .error PErr.panic :=
  ⟨rfl, rfl, rfl, rfl, rfl⟩

/-- General round-trip of the Name-List Decoder: a length-prefixed
comma-joined encoding of a nonempty list of comma-free ASCII tokens,
placed at any in-bounds offset of the payload, decodes back to exactly
those tokens with consumed count `4 + body length`. -/
theorem nameListRoundTrip (pkt : BinaryPacket) (pre post : List Nat)
    (tokens : List (List Nat))
    (hne : tokens ≠ [])
    (hcf : ∀ t ∈ tokens, ∀ c ∈ t, c < 128 ∧ c ≠ 44)
    (hlen : (joinComma tokens).length < 2 ^ 32)
    (hp : pkt.payload = pre ++ (encNL (joinComma tokens) ++ post)) :
    parse_name_list pkt pre.length = .ok (tokens, 4 + (joinComma tokens).length) := by
  have hd : pkt.payload.drop pre.length = encNL (joinComma tokens) ++ post := by
    rw [hp, List.drop_left]
  have hascii : ∀ c ∈ joinComma tokens, c < 128 := by
    intro c hc
    rcases mem_joinComma tokens c hc with h44 | ⟨t, ht, hct⟩
    · omega
    · exact (hcf t ht c hct).1
  have hv : utf8Valid (joinComma tokens) = true := ascii_utf8Valid _ hascii
  have hstep := nameListStep pkt pre.length (joinComma tokens) post hd hlen hv
  rw [hstep, splitOnComma_joinComma tokens hne (fun t ht c hc => (hcf t ht c hc).2)]

/-- Claim C8 counterexample: the claim quantifies over every list of
comma-free ASCII tokens, but the empty token list does not round-trip:
its comma-joined encoding is the empty body, whose length-prefixed form
is `[0,0,0,0]`, and decoding that yields the one-empty-token list
`[[]]` (consumed 4), never the empty list. -/
theorem claim_C8_counterexample :
    joinComma [] = [] ∧
    parse_name_list
      { packet_length := 5, padding_length := 0,
        payload := [0, 0, 0, 0], padding := [], mac := [] } 0 =
      .ok ([[]], 4) ∧
    ([[]] : List (List Nat)) ≠ [] :=
  ⟨rfl, rfl, by decide⟩

/-- Claim C8 (amended to nonempty token lists): for every nonempty list
of comma-free ASCII tokens, decoding its length-prefixed comma-joined
encoding at any in-bounds offset returns the original token list in
order with consumed byte count `4 + body length`; and a zero-length
body yields exactly one token equal to the empty string, never an empty
list. -/
theorem claim_C8 :
    (∀ (pkt : BinaryPacket) (pre post : List Nat) (tokens : List (List Nat)),
      tokens ≠ [] →
      (∀ t ∈ tokens, ∀ c ∈ t, c < 128 ∧ c ≠ 44) →
      (joinComma tokens).length < 2 ^ 32 →
      pkt.payload = pre ++ (encNL (joinComma tokens) ++ post) →
      parse_name_list pkt pre.length =
        .ok (tokens, 4 + (joinComma tokens).length)) ∧
    (∀ (pkt : BinaryPacket) (pre post : List Nat),
      pkt.payload = pre ++ ([0, 0, 0, 0] ++ post) →
      parse_name_list pkt pre.length = .ok ([[]], 4)) := by
  refine ⟨nameListRoundTrip, fun pkt pre post hp => ?_⟩
  exact nameListRoundTrip pkt pre post [[]] (by simp) (by simp) (by decide) hp

/-- Witness for C8: the example of the specification — body `"a,b,c"`
(bytes `[97,44,98,44,99]`) decodes to the three tokens `a`, `b`, `c`
with consumed count `4 + 5` — and the zero-length-body quirk. -/
theorem claim_C8_witness :
    parse_name_list
      { packet_length := 10, padding_length := 0,
        payload := [0, 0, 0, 5, 97, 44, 98, 44, 99], padding := [], mac := [] } 0 =
      .ok ([[97], [98], [99]], 4 + 5) ∧
    parse_name_list
      { packet_length := 5, padding_length := 0,
        payload := [0, 0, 0, 0], padding := [], mac := [] } 0 =
      .ok ([[]], 4) :=
  ⟨(claim_C8.1
      { packet_length := 10, padding_length := 0,
        payload := [0, 0, 0, 5, 97, 44, 98, 44, 99], padding := [], mac := [] }
      [] [] [[97], [98], [99]] (by decide) (by decide) (by decide) rfl).trans rfl,
   claim_C8.2
      { packet_length := 5, padding_length := 0,
        payload := [0, 0, 0, 0], padding := [], mac := [] }
      [] [] rfl⟩

/-- Claim C4 counterexample: a KEXINIT-tagged payload of 6 bytes falls
short before the final field (already at the 16-byte cookie), yet the
decoder does not report a malformed-packet error — it panics at the
unchecked cookie slice; the panic is distinct from every returned
protocol error. -/
theorem claim_C4_counterexample :
    parse_kex_init
      { packet_length := 7, padding_length := 0,
        payload := [20, 0, 0, 0, 0, 0], padding := [], mac := [] } =
      .error PErr.panic ∧
    PErr.panic ≠ PErr.ioTruncated ∧ PErr.panic ≠ PErr.oversized :=
  ⟨rfl, by decide, by decide⟩

/-- Claim C4 (amended): for every well-formed KEXINIT payload the
total consumed bytes of the decoder across all fields (1-byte type, 16-byte
cookie, ten name-lists, 1-byte flag, 4-byte reserved) exactly equals
`payload.len()`, and any truncation at any of the ten name-list fields
is reported as `ProtocolError::Truncated` (`UnexpectedEof`); a
shortfall at the fixed-width fields (cookie, flag, reserved), however,
panics via unchecked indexing instead of being reported as an error
(see the counterexample). -/
theorem claim_C4 :
    (∀ (pkt : BinaryPacket) (t flag r1 r2 r3 r4 : Nat)
       (cookie b1 b2 b3 b4 b5 b6 b7 b8 b9 b10 : List Nat),
      cookie.length = 16 →
      goodBody b1 → goodBody b2 → goodBody b3 → goodBody b4 → goodBody b5 →
      goodBody b6 → goodBody b7 → goodBody b8 → goodBody b9 → goodBody b10 →
      pkt.payload = (t :: cookie) ++ (encNL b1 ++ (encNL b2 ++ (encNL b3 ++ (encNL b4 ++ (encNL b5 ++ (encNL b6 ++ (encNL b7 ++ (encNL b8 ++ (encNL b9 ++ (encNL b10 ++ (flag :: [r1, r2, r3, r4]))))))))))) →
      parse_kex_init pkt = .ok
        { msg_type := t,
          cookie := cookie,
          kex_algorithms := splitOnComma b1,
          server_host_key_algorithms := splitOnComma b2,
          encryption_algorithms_client_to_server := splitOnComma b3,
          encryption_algorithms_server_to_client := splitOnComma b4,
          mac_algorithms_client_to_server := splitOnComma b5,
          mac_algorithms_server_to_client := splitOnComma b6,
          compression_algorithms_client_to_server := splitOnComma b7,
          compression_algorithms_server_to_client := splitOnComma b8,
          languages_client_to_server := splitOnComma b9,
          languages_server_to_client := splitOnComma b10,
          first_kex_packet_follows := flag != 0,
          flags := be32 [r1, r2, r3, r4] } ∧
      1 + 16 + ((4 + b1.length) + (4 + b2.length) + (4 + b3.length) +
        (4 + b4.length) + (4 + b5.length) + (4 + b6.length) + (4 + b7.length) +
        (4 + b8.length) + (4 + b9.length) + (4 + b10.length)) + 1 + 4 =
        pkt.payload.length) ∧
    (∀ (pkt : BinaryPacket) (t : Nat) (cookie tail : List Nat),
      cookie.length = 16 →
      pkt.payload = (t :: cookie) ++ tail →
      truncCond tail →
      parse_kex_init pkt = .error PErr.ioTruncated) ∧
    (∀ (pkt : BinaryPacket) (t : Nat) (cookie b1 tail : List Nat),
      cookie.length = 16 →
      goodBody b1 →
      pkt.payload = (t :: cookie) ++ (encNL b1 ++ (tail)) →
      truncCond tail →
      parse_kex_init pkt = .error PErr.ioTruncated) ∧
    (∀ (pkt : BinaryPacket) (t : Nat) (cookie b1 b2 tail : List Nat),
      cookie.length = 16 →
      goodBody b1 →
      goodBody b2 →
      pkt.payload = (t :: cookie) ++ (encNL b1 ++ (encNL b2 ++ (tail))) →
      truncCond tail →
      parse_kex_init pkt = .error PErr.ioTruncated) ∧
    (∀ (pkt : BinaryPacket) (t : Nat) (cookie b1 b2 b3 tail : List Nat),
      cookie.length = 16 →
      goodBody b1 →
      goodBody b2 →
      goodBody b3 →
      pkt.payload = (t :: cookie) ++ (encNL b1 ++ (encNL b2 ++ (encNL b3 ++ (tail)))) →
      truncCond tail →
      parse_kex_init pkt = .error PErr.ioTruncated) ∧
    (∀ (pkt : BinaryPacket) (t : Nat) (cookie b1 b2 b3 b4 tail : List Nat),
      cookie.length = 16 →
      goodBody b1 →
      goodBody b2 →
      goodBody b3 →
      goodBody b4 →
      pkt.payload = (t :: cookie) ++ (encNL b1 ++ (encNL b2 ++ (encNL b3 ++ (encNL b4 ++ (tail))))) →
      truncCond tail →
      parse_kex_init pkt = .error PErr.ioTruncated) ∧
    (∀ (pkt : BinaryPacket) (t : Nat) (cookie b1 b2 b3 b4 b5 tail : List Nat),
      cookie.length = 16 →
      goodBody b1 →
      goodBody b2 →
      goodBody b3 →
      goodBody b4 →
      goodBody b5 →
      pkt.payload = (t :: cookie) ++ (encNL b1 ++ (encNL b2 ++ (encNL b3 ++ (encNL b4 ++ (encNL b5 ++ (tail)))))) →
      truncCond tail →
      parse_kex_init pkt = .error PErr.ioTruncated) ∧
    (∀ (pkt : BinaryPacket) (t : Nat) (cookie b1 b2 b3 b4 b5 b6 tail : List Nat),
      cookie.length = 16 →
      goodBody b1 →
      goodBody b2 →
      goodBody b3 →
      goodBody b4 →
      goodBody b5 →
      goodBody b6 →
      pkt.payload = (t :: cookie) ++ (encNL b1 ++ (encNL b2 ++ (encNL b3 ++ (encNL b4 ++ (encNL b5 ++ (encNL b6 ++ (tail))))))) →
      truncCond tail →
      parse_kex_init pkt = .error PErr.ioTruncated) ∧
    (∀ (pkt : BinaryPacket) (t : Nat) (cookie b1 b2 b3 b4 b5 b6 b7 tail : List Nat),
      cookie.length = 16 →
      goodBody b1 →
      goodBody b2 →
      goodBody b3 →
      goodBody b4 →
      goodBody b5 →
      goodBody b6 →
      goodBody b7 →
      pkt.payload = (t :: cookie) ++ (encNL b1 ++ (encNL b2 ++ (encNL b3 ++ (encNL b4 ++ (encNL b5 ++ (encNL b6 ++ (encNL b7 ++ (tail)))))))) →
      truncCond tail →
      parse_kex_init pkt = .error PErr.ioTruncated) ∧
    (∀ (pkt : BinaryPacket) (t : Nat) (cookie b1 b2 b3 b4 b5 b6 b7 b8 tail : List Nat),
      cookie.length = 16 →
      goodBody b1 →
      goodBody b2 →
      goodBody b3 →
      goodBody b4 →
      goodBody b5 →
      goodBody b6 →
      goodBody b7 →
      goodBody b8 →
      pkt.payload = (t :: cookie) ++ (encNL b1 ++ (encNL b2 ++ (encNL b3 ++ (encNL b4 ++ (encNL b5 ++ (encNL b6 ++ (encNL b7 ++ (encNL b8 ++ (tail))))))))) →
      truncCond tail →
      parse_kex_init pkt = .error PErr.ioTruncated) ∧
    (∀ (pkt : BinaryPacket) (t : Nat) (cookie b1 b2 b3 b4 b5 b6 b7 b8 b9 tail : List Nat),
      cookie.length = 16 →
      goodBody b1 →
      goodBody b2 →
      goodBody b3 →
      goodBody b4 →
      goodBody b5 →
      goodBody b6 →
      goodBody b7 →
      goodBody b8 →
      goodBody b9 →
      pkt.payload = (t :: cookie) ++ (encNL b1 ++ (encNL b2 ++ (encNL b3 ++ (encNL b4 ++ (encNL b5 ++ (encNL b6 ++ (encNL b7 ++ (encNL b8 ++ (encNL b9 ++ (tail)))))))))) →
      truncCond tail →
      parse_kex_init pkt = .error PErr.ioTruncated) := by
  refine ⟨fun pkt t flag r1 r2 r3 r4 cookie b1 b2 b3 b4 b5 b6 b7 b8 b9 b10
      hc h1 h2 h3 h4 h5 h6 h7 h8 h9 h10 hp =>
      ⟨parse_kex_init_wellFormed pkt t flag r1 r2 r3 r4 cookie
        b1 b2 b3 b4 b5 b6 b7 b8 b9 b10 hc h1 h2 h3 h4 h5 h6 h7 h8 h9 h10 hp, ?_⟩,
    kexTrunc0, kexTrunc1, kexTrunc2, kexTrunc3, kexTrunc4, kexTrunc5, kexTrunc6,
    kexTrunc7, kexTrunc8, kexTrunc9⟩
  have hl := congrArg List.length hp
  simp [encNL, be32enc] at hl
  omega

/-- Witness for C4: a complete KEXINIT payload with ten empty
name-lists, flag 1 and reserved word 9 decodes fully (consuming all 62
payload bytes); truncating within the first name-list field, or within
the tenth (a length field announcing 5 body bytes with none present),
is reported as `ioTruncated`. -/
theorem claim_C4_witness :
    parse_kex_init
      { packet_length := 63, padding_length := 0,
        payload := (20 :: List.replicate 16 0) ++ (encNL [] ++ (encNL [] ++ (encNL [] ++
          (encNL [] ++ (encNL [] ++ (encNL [] ++ (encNL [] ++ (encNL [] ++ (encNL [] ++
          (encNL [] ++ 1 :: [0, 0, 0, 9])))))))))),
        padding := [], mac := [] } =
      .ok { msg_type := 20, cookie := List.replicate 16 0,
            kex_algorithms := [[]], server_host_key_algorithms := [[]],
            encryption_algorithms_client_to_server := [[]],
            encryption_algorithms_server_to_client := [[]],
            mac_algorithms_client_to_server := [[]],
            mac_algorithms_server_to_client := [[]],
            compression_algorithms_client_to_server := [[]],
            compression_algorithms_server_to_client := [[]],
            languages_client_to_server := [[]],
            languages_server_to_client := [[]],
            first_kex_packet_follows := true,
            flags := 9 } ∧
    parse_kex_init
      { packet_length := 20, padding_length := 0,
        payload := (20 :: List.replicate 16 0) ++ [0, 0],
        padding := [], mac := [] } = .error PErr.ioTruncated ∧
    parse_kex_init
      { packet_length := 58, padding_length := 0,
        payload := (20 :: List.replicate 16 0) ++ (encNL [] ++ (encNL [] ++ (encNL [] ++
          (encNL [] ++ (encNL [] ++ (encNL [] ++ (encNL [] ++ (encNL [] ++ (encNL [] ++
          [0, 0, 0, 5]))))))))),
        padding := [], mac := [] } = .error PErr.ioTruncated :=
  ⟨(claim_C4.1 _ 20 1 0 0 0 9 (List.replicate 16 0) [] [] [] [] [] [] [] [] [] []
      (by decide) (by decide) (by decide) (by decide) (by decide) (by decide)
      (by decide) (by decide) (by decide) (by decide) (by decide) rfl).1.trans rfl,
   claim_C4.2.1 _ 20 (List.replicate 16 0) [0, 0] (by decide) rfl (by decide),
   claim_C4.2.2.2.2.2.2.2.2.2.2 _ 20 (List.replicate 16 0) [] [] [] [] [] [] [] [] []
     [0, 0, 0, 5] (by decide) (by decide) (by decide) (by decide) (by decide)
     (by decide) (by decide) (by decide) (by decide) (by decide) rfl (by decide)⟩
